import Mathlib

/-!
# Trash_To_Value: the interaction layer of `script.js`

A shallow embedding of the page controller in `src/script.js`:

* the scroll-spy (`handleNavigation`) and the in-page anchor handler
  installed by `setupSmoothScrolling`;
* the contact form life cycle (`submitContactForm`) with its two delayed
  callbacks, over a logical clock;
* the carousel closure (`showSlide`, `nextSlide`, `prevSlide`, `startAuto`,
  `stopAuto`), which the source instantiates twice with identical code.

Conventions.  Pixel quantities (`offsetTop`, `offsetHeight`, `scrollY`) and
slide indices are integers.  A DOM class list is represented by the one flag
the script toggles on it.  Strings are compared as sequences of characters.
Time is a natural number of milliseconds and a timer runs at its due instant.
-/

namespace TrashToValue

/-! ## Strings -/

/-- `String.prototype.includes` on character sequences: `search` occurs in
`hay` as a contiguous block (the empty block occurs everywhere). -/
def includesChars (hay search : List Char) : Bool :=
  match hay with
  | [] => search.isPrefixOf []
  | c :: rest => search.isPrefixOf (c :: rest) || includesChars rest search

/-- `s.includes(search)`. -/
def includes (s search : String) : Bool :=
  includesChars s.data search.data

/-- `s.substring(1)`: the string without its first character. -/
def substring1 (s : String) : String :=
  String.mk (s.data.drop 1)

/-! ## Navigation: scroll-spy and smooth scrolling -/

/-- A `main section` element: its `id` attribute and its `offsetTop`. -/
structure Section where
  id : String
  offsetTop : Int
  deriving DecidableEq, Repr

/-- A `.nav-link` element: its `href` attribute and whether its class list
holds `active`. -/
structure NavLink where
  href : String
  active : Bool
  deriving DecidableEq, Repr

/-- An element that carries an id, as seen by `document.getElementById`. -/
structure Element where
  id : String
  offsetTop : Int
  deriving DecidableEq, Repr

/-- The part of the document and window that navigation reads and writes. -/
structure Page where
  /-- the result of `querySelectorAll('main section')`, in document order -/
  sections : List Section
  /-- the result of `querySelectorAll('.nav-link')`, in document order -/
  navLinks : List NavLink
  /-- the elements with an id, in document order -/
  elements : List Element
  /-- `offsetHeight` of `#main-header` -/
  mainHeaderHeight : Int
  /-- `offsetHeight` of `#secondary-nav` -/
  secondaryNavHeight : Int
  /-- `window.scrollY` -/
  scrollY : Int
  /-- the URLs given to `history.pushState`, oldest first -/
  pushed : List String
  /-- the `top` of every `window.scrollTo` request, oldest first -/
  scrollRequests : List Int
  deriving DecidableEq, Repr

/-- The loop of `handleNavigation` over the sections: `current` starts as
`'home'` and is overwritten by the id of every section whose top lies at or
above `scrollPosition + offset`, where `offset` is the two header heights
plus the 30px buffer. -/
def currentSection (sections : List Section) (scrollPosition mainHeaderHeight
    secondaryNavHeight : Int) : String :=
  let offset := mainHeaderHeight + secondaryNavHeight + 30
  sections.foldl
    (fun current s => if s.offsetTop ≤ scrollPosition + offset then s.id else current)
    "home"

/-- The body of the loop of `handleNavigation` over the links: remove
`active`, then add it back when the href includes `current`. -/
def updateLink (current : String) (link : NavLink) : NavLink :=
  let cleared : NavLink := { link with active := false }
  if includes cleared.href current then { cleared with active := true } else cleared

/-- `handleNavigation()`. -/
def handleNavigation (p : Page) : Page :=
  let current := currentSection p.sections p.scrollY p.mainHeaderHeight p.secondaryNavHeight
  { p with navLinks := p.navLinks.map (updateLink current) }

/-- `document.getElementById(id)`: the first element in document order with
that id; the empty string names no element. -/
def getElementById (p : Page) (id : String) : Option Element :=
  if id = "" then none else p.elements.find? (fun e => decide (e.id = id))

/-- The click listener that `setupSmoothScrolling` installs on an anchor
whose href starts with `#`. -/
def clickAnchor (p : Page) (href : String) : Page :=
  let targetId := substring1 href
  match getElementById p targetId with
  | none => p
  | some targetElement =>
    let offset := p.mainHeaderHeight + p.secondaryNavHeight + 24
    let p1 : Page := { p with pushed := p.pushed ++ ["#" ++ targetId] }
    let p2 := handleNavigation p1
    { p2 with scrollRequests := p2.scrollRequests ++ [targetElement.offsetTop - offset] }

/-- The number of links whose class list holds `active`. -/
def activeCount (links : List NavLink) : Nat :=
  (links.filter (fun l => l.active)).length

/-! ## Carousel -/

/-- A JavaScript number as the carousel uses it: an integer or `NaN`. -/
inductive Num where
  | int (i : Int)
  | nan
  deriving DecidableEq, Repr

/-- `a + k` for an integer constant `k`. -/
def Num.add (a : Num) (k : Int) : Num :=
  match a with
  | .int i => .int (i + k)
  | .nan => .nan

/-- `a % n`: the remainder takes the sign of the dividend, and a zero divisor
gives `NaN`. -/
def Num.rem (a : Num) (n : Int) : Num :=
  match a with
  | .int i => if n = 0 then .nan else .int (Int.tmod i n)
  | .nan => .nan

/-- The position that `xs[n]` reads: defined when `n` is an integer within
bounds, otherwise the access yields `undefined`. -/
def index? {α : Type} (xs : List α) (n : Num) : Option Nat :=
  match n with
  | .int i => if 0 ≤ i ∧ i.toNat < xs.length then some i.toNat else none
  | .nan => none

/-- One carousel closure together with the interval timers it created. -/
structure Carousel where
  /-- `active` flag of every `.carousel-slide`, in document order -/
  slides : List Bool
  /-- `active` flag of every child of `.carousel-indicators` -/
  indicators : List Bool
  /-- the variable `current` -/
  current : Num
  /-- the variable `interval`; `none` while it is still undefined -/
  interval : Option Nat
  /-- ids of the live interval timers that call this closure's `nextSlide` -/
  liveTimers : List Nat
  /-- the id the next `setInterval` call returns -/
  nextTimerId : Nat
  deriving DecidableEq, Repr

/-- How a call ends: it returns, or it throws (a `TypeError` from reading
`classList` of `undefined`); either way the mutations made so far stay. -/
inductive Outcome where
  | returned (c : Carousel)
  | threw (c : Carousel)
  deriving DecidableEq, Repr

/-- The carousel state a call leaves behind. -/
def Outcome.state : Outcome → Carousel
  | .returned c => c
  | .threw c => c

/-- `showSlide(idx)`, statement by statement. -/
def showSlide (c : Carousel) (idx : Num) : Outcome :=
  match index? c.slides c.current with
  | none => .threw c
  | some i =>
    let c1 : Carousel := { c with slides := c.slides.set i false }
    match index? c1.indicators c1.current with
    | none => .threw c1
    | some j =>
      let c2 : Carousel := { c1 with indicators := c1.indicators.set j false }
      let c3 : Carousel := { c2 with current := idx }
      match index? c3.slides c3.current with
      | none => .threw c3
      | some k =>
        let c4 : Carousel := { c3 with slides := c3.slides.set k true }
        match index? c4.indicators c4.current with
        | none => .threw c4
        | some l => .returned { c4 with indicators := c4.indicators.set l true }

/-- `nextSlide()`. -/
def nextSlide (c : Carousel) : Outcome :=
  showSlide c ((c.current.add 1).rem c.slides.length)

/-- `prevSlide()`. -/
def prevSlide (c : Carousel) : Outcome :=
  showSlide c (((c.current.add (-1)).add c.slides.length).rem c.slides.length)

/-- `startAuto()`: `interval = setInterval(nextSlide, 4000)`. -/
def startAuto (c : Carousel) : Carousel :=
  { c with
    interval := some c.nextTimerId
    liveTimers := c.liveTimers ++ [c.nextTimerId]
    nextTimerId := c.nextTimerId + 1 }

/-- `stopAuto()`: `clearInterval(interval)`; an undefined or stale handle
clears nothing. -/
def stopAuto (c : Carousel) : Carousel :=
  match c.interval with
  | none => c
  | some h => { c with liveTimers := c.liveTimers.filter (fun t => decide (t ≠ h)) }

/-- The `DOMContentLoaded` handler of a carousel whose two arrows and whose
indicator container exist.  `slides` are the flags the slides carry in the
markup, `children` those of the elements already inside the indicator
container, `timerId` the first free timer id.  One dot without classes is
appended per slide, then come `showSlide(0)` and `startAuto()`; an exception
in `showSlide(0)` ends the handler before `startAuto()`. -/
def carouselInit (slides children : List Bool) (timerId : Nat) : Outcome :=
  let c0 : Carousel :=
    { slides := slides
      indicators := children ++ List.replicate slides.length false
      current := .int 0
      interval := none
      liveTimers := []
      nextTimerId := timerId }
  match showSlide c0 (.int 0) with
  | .threw c => .threw c
  | .returned c => .returned (startAuto c)

/-- The events a mounted carousel reacts to. -/
inductive Event where
  /-- click on `.next` -/
  | clickNext
  /-- click on `.prev` -/
  | clickPrev
  /-- click on the dot created for slide `i` -/
  | clickDot (i : Nat)
  /-- `mouseenter` on the indicator strip or on an arrow -/
  | mouseenter
  /-- `mouseleave` on the indicator strip or on an arrow -/
  | mouseleave
  /-- a live interval timer runs its callback -/
  | timerFires
  deriving DecidableEq, Repr

/-- The listener that runs for an event. -/
def handle (c : Carousel) : Event → Outcome
  | .clickNext => nextSlide c
  | .clickPrev => prevSlide c
  | .clickDot i => showSlide c (.int i)
  | .mouseenter => .returned (stopAuto c)
  | .mouseleave => .returned (startAuto c)
  | .timerFires => nextSlide c

/-- A sequence of events, one listener after the other; an exception is
reported to the console and the next event finds the state as it was left. -/
def dispatchAll (c : Carousel) (evs : List Event) : Carousel :=
  evs.foldl (fun s ev => (handle s ev).state) c

/-- A sequence of events that stops at the first listener that throws. -/
def runAll (c : Carousel) : List Event → Outcome
  | [] => .returned c
  | ev :: rest =>
    match handle c ev with
    | .returned c1 => runAll c1 rest
    | .threw c1 => .threw c1

/-- One 4000ms period: every live interval timer calls `nextSlide` once. -/
def intervalElapsed (c : Carousel) : Carousel :=
  c.liveTimers.foldl (fun s _ => (nextSlide s).state) c

/-- The flags of `n` elements of which only the one at `i` is active. -/
def oneHot (n i : Nat) : List Bool :=
  (List.range n).map (fun k => decide (k = i))

/-- The number of elements that carry the `active` class. -/
def activeFlags (flags : List Bool) : Nat :=
  flags.count true

/-- An event that moves a carousel of `n` slides: next (by click or by
timer), prev, or the dot of an existing slide. -/
def Event.navigates (n : Nat) : Event → Bool
  | .clickNext => true
  | .clickPrev => true
  | .clickDot i => decide (i < n)
  | .mouseenter => false
  | .mouseleave => false
  | .timerFires => true

/-- No `mouseleave` (start) arrives while autoplay runs: between two starts
there is a `mouseenter` (stop).  `running` tells whether autoplay runs before
the first event. -/
def alternates (running : Bool) : List Event → Bool
  | [] => true
  | .mouseenter :: rest => alternates false rest
  | .mouseleave :: rest => !running && alternates true rest
  | _ :: rest => alternates running rest

/-- Whether autoplay runs after a sequence of events: the last `mouseenter`
or `mouseleave` decides, and without one the state before the events stays. -/
def autoplayRuns (running : Bool) : List Event → Bool
  | [] => running
  | .mouseenter :: rest => autoplayRuns false rest
  | .mouseleave :: rest => autoplayRuns true rest
  | _ :: rest => autoplayRuns running rest

/-! ## Contact form -/

/-- White space and line terminators, the characters that
`String.prototype.trim` strips. -/
def isWhiteSpace (c : Char) : Bool :=
  let n := c.toNat
  n = 0x09 || n = 0x0A || n = 0x0B || n = 0x0C || n = 0x0D || n = 0x20 || n = 0xA0 ||
  n = 0x1680 || (0x2000 ≤ n && n ≤ 0x200A) || n = 0x2028 || n = 0x2029 ||
  n = 0x202F || n = 0x205F || n = 0x3000 || n = 0xFEFF

/-- `s.trim()`. -/
def trim (s : String) : String :=
  String.mk ((s.data.dropWhile isWhiteSpace).reverse.dropWhile isWhiteSpace).reverse

/-- The lines the submit handler writes to the console. -/
inductive ConsoleEntry where
  /-- `console.error("Validation Error: All fields must be filled out.")` -/
  | validationError
  /-- `console.log('--- MOCK BACKEND CALL ---')` -/
  | mockBackendCall
  /-- the log of the simulated POST with the form data -/
  | simulatingPost (name email message : String) (timestamp : Nat)
  /-- `console.log('Mock Response Received:', mockResponse)` -/
  | mockResponseReceived
  deriving DecidableEq, Repr

/-- What a pending `setTimeout` of the submit handler runs. -/
inductive Callback where
  /-- `resolve` of the 1500ms latency promise; the handler continues after
  its `await` -/
  | latencyOver
  /-- the 8000ms callback that restores the form -/
  | resetForm
  deriving DecidableEq, Repr

/-- A pending timer. -/
structure Timer where
  due : Nat
  callback : Callback
  deriving DecidableEq, Repr

/-- The contact form, the elements around it, the console and the clock. -/
structure Form where
  /-- value of `contact-name` -/
  name : String
  /-- value of `contact-email` -/
  email : String
  /-- value of `contact-message` -/
  message : String
  /-- `submitButton.disabled` -/
  disabled : Bool
  /-- `submitButton.innerHTML` -/
  label : String
  /-- whether the button carries `flex items-center justify-center` -/
  centered : Bool
  /-- whether `#contact-form-container` carries `hidden` -/
  formHidden : Bool
  /-- whether `#success-message` carries `hidden` -/
  successHidden : Bool
  /-- console output, oldest first -/
  console : List ConsoleEntry
  /-- the current time in milliseconds -/
  now : Nat
  /-- pending timers in the order they were set -/
  timers : List Timer
  deriving DecidableEq, Repr

/-- The markup of the loading state: a spinner followed by `Sending...`. -/
def loadingLabel : String :=
  "<svg class=\"animate-spin h-5 w-5 mr-3\" viewBox=\"0 0 24 24\"><circle class=\"opacity-25\" cx=\"12\" cy=\"12\" r=\"10\" stroke=\"currentColor\" stroke-width=\"4\"></circle><path class=\"opacity-75\" fill=\"currentColor\" d=\"M4 12a8 8 0 018-8V0C5.373 0 0 5.373 0 12h4zm2 5.291A7.962 7.962 0 014 12H0c0 3.042 1.135 5.824 3 7.938l3-2.647z\"></path></svg> Sending..."

/-- `submitContactForm(event)` up to its `await`: validation, the loading
state, the two log lines and the 1500ms timer.  The elements the handler
looks up exist and the latency promise is never rejected, so that the `catch`
branch is not entered. -/
def submitContactForm (f : Form) : Form :=
  let name := trim f.name
  let email := trim f.email
  let message := trim f.message
  if name = "" ∨ email = "" ∨ message = "" then
    { f with console := f.console ++ [.validationError] }
  else
    { f with
      disabled := true
      label := loadingLabel
      centered := true
      console := f.console ++ [.mockBackendCall, .simulatingPost name email message f.now]
      timers := f.timers ++ [⟨f.now + 1500, .latencyOver⟩] }

/-- The rest of `submitContactForm` after the `await`: the success view and
the 8000ms timer. -/
def afterLatency (f : Form) : Form :=
  { f with
    console := f.console ++ [.mockResponseReceived]
    formHidden := true
    successHidden := false
    timers := f.timers ++ [⟨f.now + 8000, .resetForm⟩] }

/-- Modelled from the spec: the markup of the form is not in the sources, so
what `form.reset()` restores is taken from the spec (the fields are cleared).
The rest is the 8000ms callback as written. -/
def resetForm (f : Form) : Form :=
  { f with
    successHidden := true
    formHidden := false
    name := ""
    email := ""
    message := ""
    disabled := false
    label := "Send Message"
    centered := false }

/-- Run a timer callback. -/
def fire (f : Form) : Callback → Form
  | .latencyOver => afterLatency f
  | .resetForm => resetForm f

/-- The pending timer that runs first: the earliest due, and among equals the
one set first. -/
def nextDue : List Timer → Option Timer
  | [] => none
  | t :: rest =>
    match nextDue rest with
    | none => some t
    | some u => if t.due ≤ u.due then some t else some u

/-- An upper bound on the callbacks still to run: a latency timer sets one
more timer, a reset timer none. -/
def pendingWork : List Timer → Nat
  | [] => 0
  | ⟨_, .latencyOver⟩ :: rest => 2 + pendingWork rest
  | ⟨_, .resetForm⟩ :: rest => 1 + pendingWork rest

/-- Run, in order, the timers that are due at or before `t`, at most `fuel`
of them. -/
def runTimers : Nat → Nat → Form → Form
  | 0, _, f => f
  | fuel + 1, t, f =>
    match nextDue f.timers with
    | none => f
    | some tm =>
      if tm.due ≤ t then
        runTimers fuel t (fire { f with timers := f.timers.erase tm, now := tm.due } tm.callback)
      else f

/-- Let time pass until `t`: every timer due by then runs at its due instant,
then the clock reads `t`. -/
def advanceTo (t : Nat) (f : Form) : Form :=
  let g := runTimers (pendingWork f.timers) t f
  { g with now := max g.now t }

/-! ## Navigation: proofs -/

/-- The section loop started from any value of `current`: the last section
that passes the test decides, and without one `current` is kept. -/
theorem foldl_current_eq (limit : Int) (sections : List Section) (current : String) :
    sections.foldl (fun cur s => if s.offsetTop ≤ limit then s.id else cur) current
      = (((sections.filter (fun s => decide (s.offsetTop ≤ limit))).getLast?).map
          (fun s => s.id)).getD current := by
  induction sections generalizing current with
  | nil => simp
  | cons s rest ih =>
    rw [List.foldl_cons, ih]
    by_cases h : s.offsetTop ≤ limit
    · simp only [h, if_true, List.filter_cons, decide_True, List.getLast?_cons]
      cases (rest.filter (fun s => decide (s.offsetTop ≤ limit))).getLast? <;> simp
    · simp only [h, if_false, List.filter_cons, decide_False]
      simp

/-- A link after the update: same href, active exactly when the href includes
`current`. -/
theorem updateLink_eq (current : String) (link : NavLink) :
    updateLink current link = ⟨link.href, includes link.href current⟩ := by
  unfold updateLink
  by_cases h : includes link.href current = true
  · simp [h]
  · simp only [Bool.not_eq_true] at h
    simp [h]

/-- A character sequence occurs in itself with one character put in front. -/
theorem includesChars_cons_self (c : Char) (s : List Char) :
    includesChars (c :: s) s = true := by
  have hself : includesChars s s = true := by
    cases s with
    | nil => simp [includesChars]
    | cons d rest => simp [includesChars, List.isPrefixOf_iff_prefix]
  simp [includesChars, hself]

/-- C1: the section id that handleNavigation computes is the id of the last
section, in document order, whose top is at most scrollY + h1 + h2 + 30, and
it is the default id home when no section satisfies that inequality. -/
theorem currentSection_last_crossed (sections : List Section) (scrollY h1 h2 : Int) :
    currentSection sections scrollY h1 h2
      = (((sections.filter (fun s => decide (s.offsetTop ≤ scrollY + h1 + h2 + 30))).getLast?).map
          (fun s => s.id)).getD "home" := by
  have h := foldl_current_eq (scrollY + (h1 + h2 + 30)) sections "home"
  have e : scrollY + h1 + h2 + 30 = scrollY + (h1 + h2 + 30) := by ring
  rw [e]
  exact h

/-- C2, as the code has it: after handleNavigation every link keeps its href
and is active exactly when its href contains the current section id; so the
number of active links is the number of links whose href contains that id
(exactly one is active when exactly one href contains it), and a href made of
the hash sign and the id always contains it. -/
theorem handleNavigation_active_iff_includes (p : Page) :
    (handleNavigation p).navLinks
        = p.navLinks.map (fun l => (⟨l.href, includes l.href
            (currentSection p.sections p.scrollY p.mainHeaderHeight p.secondaryNavHeight)⟩ : NavLink))
      ∧ activeCount (handleNavigation p).navLinks
        = (p.navLinks.filter (fun l => includes l.href
            (currentSection p.sections p.scrollY p.mainHeaderHeight p.secondaryNavHeight))).length
      ∧ includes ("#" ++ currentSection p.sections p.scrollY p.mainHeaderHeight p.secondaryNavHeight)
          (currentSection p.sections p.scrollY p.mainHeaderHeight p.secondaryNavHeight) = true := by
  refine ⟨?_, ?_, ?_⟩
  · simp only [handleNavigation]
    apply List.map_congr_left
    intro l _
    exact updateLink_eq _ l
  · simp only [handleNavigation, activeCount, List.filter_map, List.length_map]
    congr 1
    apply List.filter_congr
    intro l _
    simp [updateLink_eq]
  · exact includesChars_cons_self '#' _

/-- C2 fails as stated.  With sections about (top 0) and about-us (top 900)
and one link to each, at scroll position 0 the current id is about and both
links end up active; with sections home and about and links to about and
contact only, the current id is home and no link is active. -/
theorem handleNavigation_not_exactly_one :
    currentSection [⟨"about", 0⟩, ⟨"about-us", 900⟩] 0 64 48 = "about"
      ∧ (handleNavigation
          { sections := [⟨"about", 0⟩, ⟨"about-us", 900⟩]
            navLinks := [⟨"#about", false⟩, ⟨"#about-us", false⟩]
            elements := []
            mainHeaderHeight := 64
            secondaryNavHeight := 48
            scrollY := 0
            pushed := []
            scrollRequests := [] }).navLinks = [⟨"#about", true⟩, ⟨"#about-us", true⟩]
      ∧ currentSection [⟨"home", 0⟩, ⟨"about", 900⟩] 0 64 48 = "home"
      ∧ activeCount (handleNavigation
          { sections := [⟨"home", 0⟩, ⟨"about", 900⟩]
            navLinks := [⟨"#about", true⟩, ⟨"#contact", false⟩]
            elements := []
            mainHeaderHeight := 64
            secondaryNavHeight := 48
            scrollY := 0
            pushed := []
            scrollRequests := [] }).navLinks = 0 := by
  decide

/-- C8: when the fragment of the anchor resolves to an element with top T,
the click requests one scroll, to T - h1 - h2 - 24, and pushes the hash sign
followed by the id of that element; when it resolves to nothing, the page is
left as it was (no scroll request, no pushed address). -/
theorem clickAnchor_scroll_and_fragment (p : Page) (href : String) :
    (∀ e, getElementById p (substring1 href) = some e →
        (clickAnchor p href).scrollRequests
            = p.scrollRequests ++ [e.offsetTop - p.mainHeaderHeight - p.secondaryNavHeight - 24]
          ∧ (clickAnchor p href).pushed = p.pushed ++ ["#" ++ e.id]
          ∧ e.id = substring1 href)
      ∧ (getElementById p (substring1 href) = none → clickAnchor p href = p) := by
  constructor
  · intro e he
    have hid : e.id = substring1 href := by
      unfold getElementById at he
      split at he
      · cases he
      · have := List.find?_some he
        simpa using this
    refine ⟨?_, ?_, hid⟩
    · simp only [clickAnchor, he, handleNavigation]
      congr 2
      ring
    · simp only [clickAnchor, he, handleNavigation, hid]
  · intro hn
    simp only [clickAnchor, hn]

/-- A page with a pricing section at 1200 under headers of 64 and 48: the
click on its anchor, and the click on an anchor that names nothing. -/
theorem clickAnchor_scroll_and_fragment_witness :
    ((clickAnchor
        { sections := [⟨"home", 0⟩, ⟨"pricing", 1200⟩]
          navLinks := [⟨"#home", true⟩, ⟨"#pricing", false⟩]
          elements := [⟨"home", 0⟩, ⟨"pricing", 1200⟩]
          mainHeaderHeight := 64
          secondaryNavHeight := 48
          scrollY := 0
          pushed := []
          scrollRequests := [] } "#pricing").scrollRequests = [] ++ [(1200 : Int) - 64 - 48 - 24]
      ∧ (clickAnchor
        { sections := [⟨"home", 0⟩, ⟨"pricing", 1200⟩]
          navLinks := [⟨"#home", true⟩, ⟨"#pricing", false⟩]
          elements := [⟨"home", 0⟩, ⟨"pricing", 1200⟩]
          mainHeaderHeight := 64
          secondaryNavHeight := 48
          scrollY := 0
          pushed := []
          scrollRequests := [] } "#pricing").pushed = [] ++ ["#" ++ "pricing"]
      ∧ "pricing" = substring1 "#pricing")
    ∧ clickAnchor
        { sections := [⟨"home", 0⟩, ⟨"pricing", 1200⟩]
          navLinks := [⟨"#home", true⟩, ⟨"#pricing", false⟩]
          elements := [⟨"home", 0⟩, ⟨"pricing", 1200⟩]
          mainHeaderHeight := 64
          secondaryNavHeight := 48
          scrollY := 0
          pushed := []
          scrollRequests := [] } "#team"
      = { sections := [⟨"home", 0⟩, ⟨"pricing", 1200⟩]
          navLinks := [⟨"#home", true⟩, ⟨"#pricing", false⟩]
          elements := [⟨"home", 0⟩, ⟨"pricing", 1200⟩]
          mainHeaderHeight := 64
          secondaryNavHeight := 48
          scrollY := 0
          pushed := []
          scrollRequests := [] } :=
  ⟨(clickAnchor_scroll_and_fragment _ "#pricing").1 ⟨"pricing", 1200⟩ (by decide),
   (clickAnchor_scroll_and_fragment _ "#team").2 (by decide)⟩

/-- C10: when the scroll position is the smooth-scroll destination of a
section s, that is s.top - h1 - h2 - 24, and every section after s in
document order has its top above s.top + 6, handleNavigation selects s. -/
theorem currentSection_at_scroll_target (before after : List Section) (s : Section)
    (h1 h2 : Int) (hafter : ∀ x ∈ after, x.offsetTop > s.offsetTop + 6) :
    currentSection (before ++ s :: after) (s.offsetTop - h1 - h2 - 24) h1 h2 = s.id := by
  have e : s.offsetTop - h1 - h2 - 24 + (h1 + h2 + 30) = s.offsetTop + 6 := by ring
  simp only [currentSection]
  rw [foldl_current_eq, e]
  have hs : decide (s.offsetTop ≤ s.offsetTop + 6) = true := by
    simp
  have hrest : after.filter (fun x => decide (x.offsetTop ≤ s.offsetTop + 6)) = [] := by
    rw [List.filter_eq_nil_iff]
    intro x hx
    have := hafter x hx
    simp only [decide_eq_true_eq, not_le]
    omega
  rw [List.filter_append, List.filter_cons, hs]
  simp [hrest]

/-- Sections home, about and pricing at 0, 700 and 1500 under headers of 64
and 48: at the scroll target of about, the spy selects about. -/
theorem currentSection_at_scroll_target_witness :
    currentSection ([⟨"home", 0⟩] ++ ⟨"about", 700⟩ :: [⟨"pricing", 1500⟩])
      ((700 : Int) - 64 - 48 - 24) 64 48 = "about" :=
  currentSection_at_scroll_target [⟨"home", 0⟩] [⟨"pricing", 1500⟩] ⟨"about", 700⟩ 64 48
    (by decide)

/-! ## Carousel: proofs -/

/-- Reading a list at a natural number that is within bounds. -/
theorem index?_of_lt {α : Type} (xs : List α) (i : Nat) (h : i < xs.length) :
    index? xs (.int (i : Int)) = some i := by
  simp [index?, h]

/-- An empty list has no readable position. -/
theorem index?_nil {α : Type} (n : Num) : index? ([] : List α) n = none := by
  cases n <;> simp [index?]

/-- `showSlide(k)` from a state whose index `i` and target `k` are both within
the slides, with one indicator child per slide at least: the call returns, the
flags at `i` are cleared and those at `k` are set. -/
theorem showSlide_of_lt (c : Carousel) (i k : Nat) (hcur : c.current = .int (i : Int))
    (hi : i < c.slides.length) (hk : k < c.slides.length)
    (hind : c.slides.length ≤ c.indicators.length) :
    showSlide c (.int (k : Int))
      = .returned
          { c with
            slides := (c.slides.set i false).set k true
            indicators := (c.indicators.set i false).set k true
            current := .int (k : Int) } := by
  have hi2 : i < c.indicators.length := by omega
  have hk2 : k < c.indicators.length := by omega
  simp [showSlide, hcur, index?_of_lt, hi, hk, hi2, hk2]

/-- The index that `nextSlide` passes on. -/
theorem next_index (i n : Nat) (hn : 0 < n) :
    ((Num.int (i : Int)).add 1).rem (n : Int) = .int (((i + 1) % n : Nat) : Int) := by
  have h0 : (n : Int) ≠ 0 := by omega
  simp only [Num.add, Num.rem, h0, if_false]
  congr 1

/-- The index that `prevSlide` passes on. -/
theorem prev_index (i n : Nat) (hn : 0 < n) :
    (((Num.int (i : Int)).add (-1)).add (n : Int)).rem (n : Int)
      = .int (((i + n - 1) % n : Nat) : Int) := by
  have h0 : (n : Int) ≠ 0 := by omega
  simp only [Num.add, Num.rem, h0, if_false]
  congr 1
  have e : (i : Int) + -1 + (n : Int) = ((i + n - 1 : Nat) : Int) := by omega
  rw [e]
  rfl

/-- `nextSlide()` from a well-formed state. -/
theorem nextSlide_of_lt (c : Carousel) (i : Nat) (hcur : c.current = .int (i : Int))
    (hi : i < c.slides.length) (hind : c.slides.length ≤ c.indicators.length) :
    nextSlide c
      = .returned
          { c with
            slides := (c.slides.set i false).set ((i + 1) % c.slides.length) true
            indicators := (c.indicators.set i false).set ((i + 1) % c.slides.length) true
            current := .int (((i + 1) % c.slides.length : Nat) : Int) } := by
  have hn : 0 < c.slides.length := by omega
  unfold nextSlide
  rw [hcur, next_index i _ hn]
  exact showSlide_of_lt c i _ hcur hi (Nat.mod_lt _ hn) hind

/-- `prevSlide()` from a well-formed state. -/
theorem prevSlide_of_lt (c : Carousel) (i : Nat) (hcur : c.current = .int (i : Int))
    (hi : i < c.slides.length) (hind : c.slides.length ≤ c.indicators.length) :
    prevSlide c
      = .returned
          { c with
            slides := (c.slides.set i false).set ((i + c.slides.length - 1) % c.slides.length) true
            indicators :=
              (c.indicators.set i false).set ((i + c.slides.length - 1) % c.slides.length) true
            current := .int (((i + c.slides.length - 1) % c.slides.length : Nat) : Int) } := by
  have hn : 0 < c.slides.length := by omega
  unfold prevSlide
  rw [hcur, prev_index i _ hn]
  exact showSlide_of_lt c i _ hcur hi (Nat.mod_lt _ hn) hind

/-- One step forward and one back, on indices. -/
theorem succ_pred_mod (i n : Nat) (hi : i < n) : ((i + 1) % n + n - 1) % n = i := by
  by_cases h : i + 1 < n
  · rw [Nat.mod_eq_of_lt h]
    have e : i + 1 + n - 1 = i + n := by omega
    rw [e, Nat.add_mod_right, Nat.mod_eq_of_lt hi]
  · have e : i + 1 = n := by omega
    rw [e, Nat.mod_self]
    have e2 : 0 + n - 1 = i := by omega
    rw [e2, Nat.mod_eq_of_lt hi]

/-- One step back and one forward, on indices. -/
theorem pred_succ_mod (i n : Nat) (hi : i < n) : ((i + n - 1) % n + 1) % n = i := by
  by_cases h : i = 0
  · subst h
    have hlt : 0 + n - 1 < n := by omega
    rw [Nat.mod_eq_of_lt hlt]
    have e2 : 0 + n - 1 + 1 = n := by omega
    rw [e2, Nat.mod_self]
  · have e : i + n - 1 = (i - 1) + n := by omega
    have hlt : i - 1 < n := by omega
    rw [e, Nat.add_mod_right, Nat.mod_eq_of_lt hlt]
    have e2 : i - 1 + 1 = i := by omega
    rw [e2, Nat.mod_eq_of_lt hi]

/-- `nextSlide()` returns, moves the index one step forward and keeps the
number of slides and indicator children. -/
theorem nextSlide_returns (c : Carousel) (i : Nat) (hcur : c.current = .int (i : Int))
    (hi : i < c.slides.length) (hind : c.slides.length ≤ c.indicators.length) :
    ∃ c1, nextSlide c = .returned c1
      ∧ c1.current = .int (((i + 1) % c.slides.length : Nat) : Int)
      ∧ c1.slides.length = c.slides.length ∧ c1.indicators.length = c.indicators.length :=
  ⟨_, nextSlide_of_lt c i hcur hi hind, rfl, by simp, by simp⟩

/-- `prevSlide()` returns, moves the index one step back and keeps the number
of slides and indicator children. -/
theorem prevSlide_returns (c : Carousel) (i : Nat) (hcur : c.current = .int (i : Int))
    (hi : i < c.slides.length) (hind : c.slides.length ≤ c.indicators.length) :
    ∃ c1, prevSlide c = .returned c1
      ∧ c1.current = .int (((i + c.slides.length - 1) % c.slides.length : Nat) : Int)
      ∧ c1.slides.length = c.slides.length ∧ c1.indicators.length = c.indicators.length :=
  ⟨_, prevSlide_of_lt c i hcur hi hind, rfl, by simp, by simp⟩

/-- C3: in a carousel with n >= 1 slides (and the indicator children the
initialisation gives it) whose current index is i in [0, n-1], nextSlide then
prevSlide both return and leave the current index at i, and so do prevSlide
then nextSlide, wraparound included. -/
theorem next_prev_restore_index (c : Carousel) (i : Nat) (hcur : c.current = .int (i : Int))
    (hi : i < c.slides.length) (hind : c.slides.length ≤ c.indicators.length) :
    (∃ c1 c2, nextSlide c = .returned c1 ∧ prevSlide c1 = .returned c2
        ∧ c2.current = .int (i : Int))
      ∧ (∃ c1 c2, prevSlide c = .returned c1 ∧ nextSlide c1 = .returned c2
        ∧ c2.current = .int (i : Int)) := by
  have hn : 0 < c.slides.length := by omega
  constructor
  · obtain ⟨c1, h1, hc1, hl1, hm1⟩ := nextSlide_returns c i hcur hi hind
    obtain ⟨c2, h2, hc2, _, _⟩ := prevSlide_returns c1 _ hc1
      (by rw [hl1]; exact Nat.mod_lt _ hn) (by omega)
    refine ⟨c1, c2, h1, h2, ?_⟩
    rw [hc2, hl1, succ_pred_mod i c.slides.length hi]
  · obtain ⟨c1, h1, hc1, hl1, hm1⟩ := prevSlide_returns c i hcur hi hind
    obtain ⟨c2, h2, hc2, _, _⟩ := nextSlide_returns c1 _ hc1
      (by rw [hl1]; exact Nat.mod_lt _ hn) (by omega)
    refine ⟨c1, c2, h1, h2, ?_⟩
    rw [hc2, hl1, pred_succ_mod i c.slides.length hi]

/-- Three slides, first at the last slide and then at the first one: both
round trips cross the wraparound. -/
theorem next_prev_restore_index_witness :
    ((∃ c1 c2, nextSlide ⟨[false, false, true], [false, false, true], .int 2, some 1, [1], 2⟩
          = .returned c1 ∧ prevSlide c1 = .returned c2 ∧ c2.current = .int 2)
      ∧ (∃ c1 c2, prevSlide ⟨[false, false, true], [false, false, true], .int 2, some 1, [1], 2⟩
          = .returned c1 ∧ nextSlide c1 = .returned c2 ∧ c2.current = .int 2))
    ∧ ((∃ c1 c2, nextSlide ⟨[true, false, false], [true, false, false], .int 0, some 1, [1], 2⟩
          = .returned c1 ∧ prevSlide c1 = .returned c2 ∧ c2.current = .int 0)
      ∧ (∃ c1 c2, prevSlide ⟨[true, false, false], [true, false, false], .int 0, some 1, [1], 2⟩
          = .returned c1 ∧ nextSlide c1 = .returned c2 ∧ c2.current = .int 0)) :=
  ⟨next_prev_restore_index ⟨[false, false, true], [false, false, true], .int 2, some 1, [1], 2⟩ 2
      rfl (by decide) (by decide),
   next_prev_restore_index ⟨[true, false, false], [true, false, false], .int 0, some 1, [1], 2⟩ 0
      rfl (by decide) (by decide)⟩

/-- Length of a one-hot flag list. -/
theorem oneHot_length (n i : Nat) : (oneHot n i).length = n := by
  simp [oneHot]

/-- Clearing the flag at `i` and setting the one at `k` turns the one-hot
list for `i` into the one for `k`. -/
theorem oneHot_set (n i k : Nat) :
    ((oneHot n i).set i false).set k true = oneHot n k := by
  apply List.ext_getElem
  · simp [oneHot]
  · intro j h1 h2
    simp only [oneHot, List.getElem_set, List.getElem_map, List.getElem_range]
    by_cases hjk : k = j
    · simp [hjk]
    · by_cases hji : i = j
      · simp [hjk, hji, Ne.symm hjk]
      · simp [hjk, hji, Ne.symm hjk, Ne.symm hji]

/-- Flags that are clear everywhere after the first element, once the first
is set. -/
theorem set_zero_eq_oneHot (l : List Bool) (hne : l ≠ []) (htl : ∀ b ∈ l.tail, b = false) :
    (l.set 0 false).set 0 true = oneHot l.length 0 := by
  cases l with
  | nil => exact absurd rfl hne
  | cons b tl =>
    apply List.ext_getElem
    · simp [oneHot]
    · intro j h1 h2
      cases j with
      | zero => simp [oneHot]
      | succ m =>
        have hm : m < tl.length := by simpa using h1
        have : tl[m] = false := htl _ (List.getElem_mem hm)
        simp [oneHot, this]

/-- A one-hot list has one active flag when its index is within bounds, and
none otherwise. -/
theorem activeFlags_oneHot (n i : Nat) : activeFlags (oneHot n i) = if i < n then 1 else 0 := by
  induction n with
  | zero => simp [activeFlags, oneHot]
  | succ n ih =>
    have e : oneHot (n + 1) i = oneHot n i ++ [decide (n = i)] := by
      simp [oneHot, List.range_succ]
    simp only [activeFlags] at ih
    rw [activeFlags, e, List.count_append, ih]
    by_cases h1 : i < n
    · have : n ≠ i := by omega
      have h2 : i < n + 1 := by omega
      simp [h1, h2, this]
    · by_cases h3 : n = i
      · have h2 : i < n + 1 := by omega
        simp [h1, h2, h3]
      · have h2 : ¬ i < n + 1 := by omega
        simp [h1, h2, h3]

/-- The state every navigation step keeps: the index is within the slides and
the slides and the indicator children are one-hot at it. -/
theorem showSlide_oneHot (c : Carousel) (n m i k : Nat) (hnm : n ≤ m) (hi : i < n) (hk : k < n)
    (hcur : c.current = .int (i : Int)) (hs : c.slides = oneHot n i)
    (hd : c.indicators = oneHot m i) :
    ∃ c1, showSlide c (.int (k : Int)) = .returned c1 ∧ c1.current = .int (k : Int)
      ∧ c1.slides = oneHot n k ∧ c1.indicators = oneHot m k := by
  have hl : c.slides.length = n := by rw [hs, oneHot_length]
  have hl2 : c.indicators.length = m := by rw [hd, oneHot_length]
  refine ⟨_, showSlide_of_lt c i k hcur (by omega) (by omega) (by omega), rfl, ?_, ?_⟩
  · simp only [hs]
    exact oneHot_set n i k
  · simp only [hd]
    exact oneHot_set m i k

/-- Every navigation event keeps the one-hot state and returns. -/
theorem handle_oneHot (c : Carousel) (n m i : Nat) (ev : Event) (hnm : n ≤ m) (hi : i < n)
    (hcur : c.current = .int (i : Int)) (hs : c.slides = oneHot n i)
    (hd : c.indicators = oneHot m i) (hev : ev.navigates n = true) :
    ∃ c1 k, handle c ev = .returned c1 ∧ k < n ∧ c1.current = .int (k : Int)
      ∧ c1.slides = oneHot n k ∧ c1.indicators = oneHot m k := by
  have hl : c.slides.length = n := by rw [hs, oneHot_length]
  have hn : 0 < n := by omega
  cases ev with
  | clickNext =>
    obtain ⟨c1, h1, h2, h3, h4⟩ :=
      showSlide_oneHot c n m i ((i + 1) % n) hnm hi (Nat.mod_lt _ hn) hcur hs hd
    refine ⟨c1, (i + 1) % n, ?_, Nat.mod_lt _ hn, h2, h3, h4⟩
    simp only [handle, nextSlide, hcur, hl, next_index i n hn]
    exact h1
  | clickPrev =>
    obtain ⟨c1, h1, h2, h3, h4⟩ :=
      showSlide_oneHot c n m i ((i + n - 1) % n) hnm hi (Nat.mod_lt _ hn) hcur hs hd
    refine ⟨c1, (i + n - 1) % n, ?_, Nat.mod_lt _ hn, h2, h3, h4⟩
    simp only [handle, prevSlide, hcur, hl, prev_index i n hn]
    exact h1
  | clickDot k =>
    have hk : k < n := by simpa [Event.navigates] using hev
    obtain ⟨c1, h1, h2, h3, h4⟩ := showSlide_oneHot c n m i k hnm hi hk hcur hs hd
    exact ⟨c1, k, h1, hk, h2, h3, h4⟩
  | mouseenter => exact absurd hev (by simp [Event.navigates])
  | mouseleave => exact absurd hev (by simp [Event.navigates])
  | timerFires =>
    obtain ⟨c1, h1, h2, h3, h4⟩ :=
      showSlide_oneHot c n m i ((i + 1) % n) hnm hi (Nat.mod_lt _ hn) hcur hs hd
    refine ⟨c1, (i + 1) % n, ?_, Nat.mod_lt _ hn, h2, h3, h4⟩
    simp only [handle, nextSlide, hcur, hl, next_index i n hn]
    exact h1

/-- A sequence of navigation events keeps the one-hot state and never
throws. -/
theorem runAll_oneHot (evs : List Event) (c : Carousel) (n m i : Nat) (hnm : n ≤ m) (hi : i < n)
    (hcur : c.current = .int (i : Int)) (hs : c.slides = oneHot n i)
    (hd : c.indicators = oneHot m i) (hev : ∀ ev ∈ evs, ev.navigates n = true) :
    ∃ c1 k, runAll c evs = .returned c1 ∧ k < n ∧ c1.current = .int (k : Int)
      ∧ c1.slides = oneHot n k ∧ c1.indicators = oneHot m k := by
  induction evs generalizing c i with
  | nil => exact ⟨c, i, rfl, hi, hcur, hs, hd⟩
  | cons ev rest ih =>
    obtain ⟨c1, k, h1, hk, h2, h3, h4⟩ :=
      handle_oneHot c n m i ev hnm hi hcur hs hd (hev ev (List.mem_cons_self _ _))
    obtain ⟨c2, j, g1, hj, g2, g3, g4⟩ :=
      ih c1 k hk h2 h3 h4 (fun e he => hev e (List.mem_cons_of_mem _ he))
    refine ⟨c2, j, ?_, hj, g2, g3, g4⟩
    simp only [runAll, h1]
    exact g1

/-- Initialisation of a carousel with at least one slide whose markup marks
no slide and no indicator child after the first: it returns with index 0 and
one-hot flags. -/
theorem carouselInit_oneHot (slides children : List Bool) (timerId : Nat) (hn : slides ≠ [])
    (hs : ∀ b ∈ slides.tail, b = false) (hc : ∀ b ∈ children.tail, b = false) :
    ∃ c0, carouselInit slides children timerId = .returned c0 ∧ c0.current = .int ((0 : Nat) : Int)
      ∧ c0.slides = oneHot slides.length 0
      ∧ c0.indicators = oneHot (children.length + slides.length) 0 := by
  have hlen : 0 < slides.length := List.length_pos.mpr hn
  have hshow := showSlide_of_lt
    { slides := slides
      indicators := children ++ List.replicate slides.length false
      current := .int 0
      interval := none
      liveTimers := []
      nextTimerId := timerId } 0 0 rfl hlen hlen (by simp)
  have hne2 : children ++ List.replicate slides.length false ≠ [] := by
    intro h
    have := congrArg List.length h
    rw [List.length_append, List.length_replicate, List.length_nil] at this
    omega
  have htl2 : ∀ b ∈ (children ++ List.replicate slides.length false).tail, b = false := by
    intro b hb
    cases children with
    | nil =>
      have hb2 : b ∈ List.replicate slides.length false := List.mem_of_mem_tail (by simpa using hb)
      exact (List.mem_replicate.mp hb2).2
    | cons d tl =>
      simp only [List.cons_append, List.tail_cons, List.mem_append] at hb
      rcases hb with hb | hb
      · exact hc b (by simpa using hb)
      · exact (List.mem_replicate.mp hb).2
  have e1 := set_zero_eq_oneHot slides hn hs
  have e2 := set_zero_eq_oneHot _ hne2 htl2
  simp only [List.length_append, List.length_replicate] at e2
  simp only [Nat.cast_zero] at hshow
  have hinit : carouselInit slides children timerId
      = .returned (startAuto
          { slides := (slides.set 0 false).set 0 true
            indicators := ((children ++ List.replicate slides.length false).set 0 false).set 0 true
            current := .int 0
            interval := none
            liveTimers := []
            nextTimerId := timerId }) := by
    simp only [carouselInit, hshow]
  exact ⟨_, hinit, rfl, e1, e2⟩

/-- C4, as the code has it: for a carousel with n >= 1 slides whose markup
marks no slide after the first as active and whose indicator container starts
empty, initialisation returns, and after any sequence of next, prev and
jump(i) with i < n, by click or by timer (none of which throws), the current
index lies in [0, n-1], exactly one slide and exactly one indicator are marked
active, and both are at the current index. -/
theorem carousel_one_active_pair (slides : List Bool) (timerId : Nat) (evs : List Event)
    (hn : slides ≠ []) (hs : ∀ b ∈ slides.tail, b = false)
    (hev : ∀ ev ∈ evs, ev.navigates slides.length = true) :
    ∃ c0 c i, carouselInit slides [] timerId = .returned c0 ∧ runAll c0 evs = .returned c
      ∧ i < slides.length ∧ c.current = .int (i : Int)
      ∧ c.slides = oneHot slides.length i ∧ c.indicators = oneHot slides.length i
      ∧ activeFlags c.slides = 1 ∧ activeFlags c.indicators = 1 := by
  have hlen : 0 < slides.length := List.length_pos.mpr hn
  obtain ⟨c0, h0, hcur, hsl, hin⟩ :=
    carouselInit_oneHot slides [] timerId hn hs (by simp)
  simp only [List.length_nil, Nat.zero_add] at hin
  obtain ⟨c, i, hrun, hi, h1, h2, h3⟩ :=
    runAll_oneHot evs c0 slides.length slides.length 0 (Nat.le_refl _) hlen hcur hsl hin hev
  refine ⟨c0, c, i, h0, hrun, hi, h1, h2, h3, ?_, ?_⟩
  · rw [h2, activeFlags_oneHot, if_pos hi]
  · rw [h3, activeFlags_oneHot, if_pos hi]

/-- Three slides, the first marked in the markup; prev (wrapping to the last
slide), the dot of slide 1, next, a timer. -/
theorem carousel_one_active_pair_witness :
    ∃ c0 c i, carouselInit [true, false, false] [] 1 = .returned c0
      ∧ runAll c0 [.clickPrev, .clickDot 1, .clickNext, .timerFires] = .returned c
      ∧ i < [true, false, false].length ∧ c.current = .int (i : Int)
      ∧ c.slides = oneHot [true, false, false].length i
      ∧ c.indicators = oneHot [true, false, false].length i
      ∧ activeFlags c.slides = 1 ∧ activeFlags c.indicators = 1 :=
  carousel_one_active_pair [true, false, false] 1
    [.clickPrev, .clickDot 1, .clickNext, .timerFires] (by decide) (by decide) (by decide)

/-- C4 fails as stated.  When the markup marks the second of two slides as
active, initialisation returns with both slides marked: showSlide(0) only
clears the slide at the current index. -/
theorem carouselInit_two_active_slides :
    carouselInit [false, true] [] 1
        = .returned ⟨[true, true], [true, false], .int 0, some 1, [1], 2⟩
      ∧ activeFlags [true, true] = 2 := by
  decide

/-- `showSlide` leaves the timers and the handle alone, whether it returns or
throws. -/
theorem showSlide_timers (c : Carousel) (idx : Num) :
    (showSlide c idx).state.liveTimers = c.liveTimers
      ∧ (showSlide c idx).state.interval = c.interval := by
  cases h1 : index? c.slides c.current with
  | none => simp [showSlide, h1, Outcome.state]
  | some i =>
    cases h2 : index? c.indicators c.current with
    | none => simp [showSlide, h1, h2, Outcome.state]
    | some j =>
      cases h3 : index? (c.slides.set i false) idx with
      | none => simp [showSlide, h1, h2, h3, Outcome.state]
      | some k =>
        cases h4 : index? (c.indicators.set j false) idx with
        | none => simp [showSlide, h1, h2, h3, h4, Outcome.state]
        | some l => simp [showSlide, h1, h2, h3, h4, Outcome.state]

/-- `showSlide` leaves the timer id supply alone, whether it returns or
throws. -/
theorem showSlide_nextTimerId (c : Carousel) (idx : Num) :
    (showSlide c idx).state.nextTimerId = c.nextTimerId := by
  cases h1 : index? c.slides c.current with
  | none => simp [showSlide, h1, Outcome.state]
  | some i =>
    cases h2 : index? c.indicators c.current with
    | none => simp [showSlide, h1, h2, Outcome.state]
    | some j =>
      cases h3 : index? (c.slides.set i false) idx with
      | none => simp [showSlide, h1, h2, h3, Outcome.state]
      | some k =>
        cases h4 : index? (c.indicators.set j false) idx with
        | none => simp [showSlide, h1, h2, h3, h4, Outcome.state]
        | some l => simp [showSlide, h1, h2, h3, h4, Outcome.state]

/-- Along events in which no start arrives while autoplay runs, the live
timers follow the autoplay state: while it runs there is exactly one, the one
whose handle `interval` holds, and after a stop there is none.  Every live
timer has an id below the next id to hand out. -/
theorem dispatchAll_timers (evs : List Event) (running : Bool) (c : Carousel)
    (hfresh : ∀ t ∈ c.liveTimers, t < c.nextTimerId)
    (hrun : running = true → ∃ h, c.liveTimers = [h] ∧ c.interval = some h)
    (hstop : running = false → c.liveTimers = [])
    (halt : alternates running evs = true) :
    (∀ t ∈ (dispatchAll c evs).liveTimers, t < (dispatchAll c evs).nextTimerId)
      ∧ (autoplayRuns running evs = true →
          ∃ h, (dispatchAll c evs).liveTimers = [h] ∧ (dispatchAll c evs).interval = some h)
      ∧ (autoplayRuns running evs = false → (dispatchAll c evs).liveTimers = []) := by
  induction evs generalizing c running with
  | nil =>
    refine ⟨hfresh, ?_, ?_⟩
    · intro h
      exact hrun (by simpa [autoplayRuns] using h)
    · intro h
      exact hstop (by simpa [autoplayRuns] using h)
  | cons ev rest ih =>
    have hstep : dispatchAll c (ev :: rest) = dispatchAll (handle c ev).state rest := rfl
    rw [hstep]
    have keep : ∀ idx, (handle c ev).state = (showSlide c idx).state →
        alternates running rest = true → autoplayRuns running (ev :: rest) = autoplayRuns running rest →
        (∀ t ∈ (dispatchAll (handle c ev).state rest).liveTimers,
            t < (dispatchAll (handle c ev).state rest).nextTimerId)
          ∧ (autoplayRuns running (ev :: rest) = true →
              ∃ h, (dispatchAll (handle c ev).state rest).liveTimers = [h]
                ∧ (dispatchAll (handle c ev).state rest).interval = some h)
          ∧ (autoplayRuns running (ev :: rest) = false →
              (dispatchAll (handle c ev).state rest).liveTimers = []) := by
      intro idx he ha hr
      rw [he, hr]
      apply ih running _ _ _ _ ha
      · intro t ht
        rw [(showSlide_timers c idx).1] at ht
        rw [showSlide_nextTimerId]
        exact hfresh t ht
      · intro hr
        rw [(showSlide_timers c idx).1, (showSlide_timers c idx).2]
        exact hrun hr
      · intro hr
        rw [(showSlide_timers c idx).1]
        exact hstop hr
    cases ev with
    | clickNext => exact keep _ rfl (by simpa [alternates] using halt) rfl
    | clickPrev => exact keep _ rfl (by simpa [alternates] using halt) rfl
    | clickDot k => exact keep _ rfl (by simpa [alternates] using halt) rfl
    | timerFires => exact keep _ rfl (by simpa [alternates] using halt) rfl
    | mouseenter =>
      have ha : alternates false rest = true := by simpa [alternates] using halt
      have hlive : (handle c .mouseenter).state.liveTimers = [] := by
        cases running with
        | true =>
          obtain ⟨h, h1, h2⟩ := hrun rfl
          simp [handle, Outcome.state, stopAuto, h1, h2]
        | false =>
          have h1 := hstop rfl
          simp only [handle, Outcome.state, stopAuto]
          cases hint : c.interval with
          | none => simpa using h1
          | some h => simp [h1]
      have hr : autoplayRuns running (Event.mouseenter :: rest) = autoplayRuns false rest := rfl
      rw [hr]
      apply ih false _ _ _ _ ha
      · intro t ht
        rw [hlive] at ht
        cases ht
      · intro hr
        cases hr
      · intro _
        exact hlive
    | mouseleave =>
      have ha : running = false ∧ alternates true rest = true := by
        simpa [alternates] using halt
      have hr : autoplayRuns running (Event.mouseleave :: rest) = autoplayRuns true rest := rfl
      rw [hr]
      apply ih true _ _ _ _ ha.2
      · intro t ht
        simp only [handle, Outcome.state, startAuto, hstop ha.1, List.nil_append,
          List.mem_singleton] at ht ⊢
        omega
      · intro _
        refine ⟨c.nextTimerId, ?_, ?_⟩
        · simp [handle, Outcome.state, startAuto, hstop ha.1]
        · simp [handle, Outcome.state, startAuto]
      · intro hr
        cases hr

/-- Every listener keeps the number of slides, leaves at least one indicator
child per slide and keeps the index within the slides, as long as the dots
that are clicked belong to existing slides. -/
theorem dispatchAll_index (evs : List Event) (c : Carousel) (n : Nat)
    (hlen : c.slides.length = n) (hind : n ≤ c.indicators.length)
    (hcur : ∃ i, i < n ∧ c.current = .int (i : Int))
    (hdots : ∀ k, Event.clickDot k ∈ evs → k < n) :
    (dispatchAll c evs).slides.length = n ∧ n ≤ (dispatchAll c evs).indicators.length
      ∧ ∃ i, i < n ∧ (dispatchAll c evs).current = .int (i : Int) := by
  induction evs generalizing c with
  | nil => exact ⟨hlen, hind, hcur⟩
  | cons ev rest ih =>
    have hstep : dispatchAll c (ev :: rest) = dispatchAll (handle c ev).state rest := rfl
    rw [hstep]
    have hrest : ∀ k, Event.clickDot k ∈ rest → k < n :=
      fun k hk => hdots k (List.mem_cons_of_mem _ hk)
    obtain ⟨i, hi, hci⟩ := hcur
    have hn : 0 < n := by omega
    have hi2 : i < c.slides.length := by omega
    have hind2 : c.slides.length ≤ c.indicators.length := by omega
    have hnext : (nextSlide c).state.slides.length = n
        ∧ n ≤ (nextSlide c).state.indicators.length
        ∧ ∃ j, j < n ∧ (nextSlide c).state.current = .int (j : Int) := by
      obtain ⟨c1, h1, h2, h3, h4⟩ := nextSlide_returns c i hci hi2 hind2
      rw [h1]
      refine ⟨by simp [Outcome.state, h3, hlen], by simp only [Outcome.state]; omega,
        (i + 1) % n, Nat.mod_lt _ hn, ?_⟩
      simp only [Outcome.state, h2, hlen]
    cases ev with
    | clickNext => exact ih _ hnext.1 hnext.2.1 hnext.2.2 hrest
    | timerFires => exact ih _ hnext.1 hnext.2.1 hnext.2.2 hrest
    | clickPrev =>
      obtain ⟨c1, h1, h2, h3, h4⟩ := prevSlide_returns c i hci hi2 hind2
      apply ih _ _ _ _ hrest
      · simp only [handle, h1, Outcome.state]
        omega
      · simp only [handle, h1, Outcome.state]
        omega
      · refine ⟨(i + n - 1) % n, Nat.mod_lt _ hn, ?_⟩
        simp only [handle, h1, Outcome.state, h2, hlen]
    | clickDot k =>
      have hk : k < n := hdots k (List.mem_cons_self _ _)
      have hshow := showSlide_of_lt c i k hci hi2 (by omega) hind2
      apply ih _ _ _ _ hrest
      · simp [handle, hshow, Outcome.state, hlen]
      · simp only [handle, hshow, Outcome.state, List.length_set]
        exact hind
      · exact ⟨k, hk, by simp [handle, hshow, Outcome.state]⟩
    | mouseenter =>
      have hsame : (handle c .mouseenter).state.slides = c.slides
          ∧ (handle c .mouseenter).state.indicators = c.indicators
          ∧ (handle c .mouseenter).state.current = c.current := by
        simp only [handle, Outcome.state, stopAuto]
        cases c.interval <;> simp
      apply ih _ _ _ _ hrest
      · rw [hsame.1]
        exact hlen
      · rw [hsame.2.1]
        exact hind
      · rw [hsame.2.2]
        exact ⟨i, hi, hci⟩
    | mouseleave =>
      exact ih _ (by simpa [handle, Outcome.state, startAuto] using hlen)
        (by simpa [handle, Outcome.state, startAuto] using hind)
        ⟨i, hi, by simpa [handle, Outcome.state, startAuto] using hci⟩ hrest

/-- An initialisation that returns had at least one slide to show, and its
result is the state after `showSlide(0)` with the first timer started. -/
theorem carouselInit_returned (slides children : List Bool) (timerId : Nat) (c0 : Carousel)
    (hinit : carouselInit slides children timerId = .returned c0) :
    slides ≠ []
      ∧ c0 = startAuto
          { slides := (slides.set 0 false).set 0 true
            indicators := ((children ++ List.replicate slides.length false).set 0 false).set 0 true
            current := .int 0
            interval := none
            liveTimers := []
            nextTimerId := timerId } := by
  have hne : slides ≠ [] := by
    intro h
    subst h
    simp [carouselInit, showSlide, index?_nil] at hinit
  have hlen : 0 < slides.length := List.length_pos.mpr hne
  have hshow := showSlide_of_lt
    { slides := slides
      indicators := children ++ List.replicate slides.length false
      current := .int 0
      interval := none
      liveTimers := []
      nextTimerId := timerId } 0 0 rfl hlen hlen (by simp)
  simp only [Nat.cast_zero] at hshow
  simp only [carouselInit, hshow] at hinit
  injection hinit with hc
  exact ⟨hne, hc.symm⟩

/-- C5, as the code has it: startAuto clears nothing, it creates a timer with
a new id, keeps the live ones and stores the new handle.  After
initialisation, in every state reached by events in which a stop (mouseenter)
comes between any two starts (mouseleave), at most one interval timer is
live: exactly one, the one whose handle is stored, while autoplay runs, and
none while it is stopped.  A 4000ms period then calls nextSlide once while
autoplay runs, which moves the index one slide forward when the clicked dots
belong to existing slides, and changes nothing while it is stopped. -/
theorem autoplay_one_timer_when_alternating (slides children : List Bool) (timerId : Nat)
    (c0 : Carousel) (evs : List Event)
    (hinit : carouselInit slides children timerId = .returned c0)
    (halt : alternates true evs = true) :
    (dispatchAll c0 evs).liveTimers.length ≤ 1
      ∧ intervalElapsed (dispatchAll c0 evs)
        = (if (dispatchAll c0 evs).liveTimers = [] then dispatchAll c0 evs
          else (nextSlide (dispatchAll c0 evs)).state)
      ∧ ((startAuto (dispatchAll c0 evs)).liveTimers
            = (dispatchAll c0 evs).liveTimers ++ [(dispatchAll c0 evs).nextTimerId]
          ∧ (startAuto (dispatchAll c0 evs)).interval = some (dispatchAll c0 evs).nextTimerId
          ∧ (dispatchAll c0 evs).nextTimerId ∉ (dispatchAll c0 evs).liveTimers)
      ∧ (autoplayRuns true evs = true →
          (∃ h, (dispatchAll c0 evs).liveTimers = [h] ∧ (dispatchAll c0 evs).interval = some h)
            ∧ intervalElapsed (dispatchAll c0 evs) = (nextSlide (dispatchAll c0 evs)).state)
      ∧ (autoplayRuns true evs = false →
          (dispatchAll c0 evs).liveTimers = []
            ∧ intervalElapsed (dispatchAll c0 evs) = dispatchAll c0 evs)
      ∧ ((∀ k, Event.clickDot k ∈ evs → k < slides.length) → autoplayRuns true evs = true →
          ∃ i, i < slides.length ∧ (dispatchAll c0 evs).current = .int (i : Int)
            ∧ (intervalElapsed (dispatchAll c0 evs)).current
              = .int (((i + 1) % slides.length : Nat) : Int)) := by
  obtain ⟨hne, hc0⟩ := carouselInit_returned slides children timerId c0 hinit
  have hpos : 0 < slides.length := List.length_pos.mpr hne
  have hlive0 : c0.liveTimers = [timerId] := by rw [hc0]; simp [startAuto]
  have hint0 : c0.interval = some timerId := by rw [hc0]; simp [startAuto]
  have hnext0 : c0.nextTimerId = timerId + 1 := by rw [hc0]; simp [startAuto]
  obtain ⟨hfresh, hrun, hstop⟩ := dispatchAll_timers evs true c0
    (by intro t ht; rw [hlive0] at ht; rw [hnext0]; simp at ht; omega)
    (fun _ => ⟨timerId, hlive0, hint0⟩) (fun h => by cases h) halt
  have hone : ∀ h, (dispatchAll c0 evs).liveTimers = [h] →
      intervalElapsed (dispatchAll c0 evs) = (nextSlide (dispatchAll c0 evs)).state := by
    intro h hl
    simp [intervalElapsed, hl]
  have hnone : (dispatchAll c0 evs).liveTimers = [] →
      intervalElapsed (dispatchAll c0 evs) = dispatchAll c0 evs := by
    intro hl
    simp [intervalElapsed, hl]
  refine ⟨?_, ?_, ⟨rfl, rfl, ?_⟩, ?_, ?_, ?_⟩
  · cases hr : autoplayRuns true evs with
    | true =>
      obtain ⟨h, hl, _⟩ := hrun hr
      simp [hl]
    | false => simp [hstop hr]
  · cases hr : autoplayRuns true evs with
    | true =>
      obtain ⟨h, hl, _⟩ := hrun hr
      rw [hone h hl, hl]
      simp
    | false =>
      rw [hnone (hstop hr), hstop hr]
      simp
  · intro hmem
    exact Nat.lt_irrefl _ (hfresh _ hmem)
  · intro hr
    obtain ⟨h, hl, hi⟩ := hrun hr
    exact ⟨⟨h, hl, hi⟩, hone h hl⟩
  · intro hr
    exact ⟨hstop hr, hnone (hstop hr)⟩
  · intro hdots hr
    obtain ⟨h, hl, _⟩ := hrun hr
    have hidx := dispatchAll_index evs c0 slides.length (by rw [hc0]; simp [startAuto])
      (by rw [hc0]; simp [startAuto]) ⟨0, hpos, by rw [hc0]; simp [startAuto]⟩ hdots
    obtain ⟨hlen, hind, i, hi, hci⟩ := hidx
    obtain ⟨c1, h1, h2, _, _⟩ := nextSlide_returns (dispatchAll c0 evs) i hci (by omega) (by omega)
    refine ⟨i, hi, hci, ?_⟩
    rw [hone h hl, h1]
    simp only [Outcome.state, h2, hlen]

/-- Three slides; the pointer enters and leaves an arrow, then next is
clicked: autoplay runs again on a new timer, the only live one, and a 4000ms
period moves the index from 1 to 2. -/
theorem autoplay_one_timer_when_alternating_witness :
    ((∃ h, (dispatchAll ⟨[true, false, false], [true, false, false], .int 0, some 1, [1], 2⟩
          [.mouseenter, .mouseleave, .clickNext]).liveTimers = [h]
        ∧ (dispatchAll ⟨[true, false, false], [true, false, false], .int 0, some 1, [1], 2⟩
          [.mouseenter, .mouseleave, .clickNext]).interval = some h)
      ∧ intervalElapsed (dispatchAll
          ⟨[true, false, false], [true, false, false], .int 0, some 1, [1], 2⟩
          [.mouseenter, .mouseleave, .clickNext])
        = (nextSlide (dispatchAll
            ⟨[true, false, false], [true, false, false], .int 0, some 1, [1], 2⟩
            [.mouseenter, .mouseleave, .clickNext])).state)
    ∧ ((dispatchAll ⟨[true, false, false], [true, false, false], .int 0, some 1, [1], 2⟩
          [.mouseenter]).liveTimers = []
      ∧ intervalElapsed (dispatchAll
          ⟨[true, false, false], [true, false, false], .int 0, some 1, [1], 2⟩ [.mouseenter])
        = dispatchAll ⟨[true, false, false], [true, false, false], .int 0, some 1, [1], 2⟩
          [.mouseenter]) :=
  ⟨(autoplay_one_timer_when_alternating [false, false, false] [] 1
      ⟨[true, false, false], [true, false, false], .int 0, some 1, [1], 2⟩
      [.mouseenter, .mouseleave, .clickNext] (by decide) (by decide)).2.2.2.1 (by decide),
   (autoplay_one_timer_when_alternating [false, false, false] [] 1
      ⟨[true, false, false], [true, false, false], .int 0, some 1, [1], 2⟩
      [.mouseenter] (by decide) (by decide)).2.2.2.2.1 (by decide)⟩

/-- C5 fails as stated.  After the initialisation of a carousel of three
slides, a second startAuto leaves two live timers; one 4000ms period then
moves the index from 0 to 2, and a stopAuto clears only the later timer. -/
theorem startAuto_twice_two_timers :
    carouselInit [false, false, false] [] 1
        = .returned ⟨[true, false, false], [true, false, false], .int 0, some 1, [1], 2⟩
      ∧ (startAuto ⟨[true, false, false], [true, false, false], .int 0, some 1, [1], 2⟩).liveTimers
        = [1, 2]
      ∧ (intervalElapsed
          (startAuto ⟨[true, false, false], [true, false, false], .int 0, some 1, [1], 2⟩)).current
        = .int 2
      ∧ (stopAuto
          (startAuto ⟨[true, false, false], [true, false, false], .int 0, some 1, [1], 2⟩)).liveTimers
        = [1] := by
  decide

/-- C9, as the code has it: with zero slides nothing is guarded.  showSlide,
nextSlide and prevSlide each throw at the first slide access and leave the
carousel as it was, the index that nextSlide and prevSlide compute is NaN,
and initialisation throws in showSlide(0) before startAuto, so that no timer
is created. -/
theorem zero_slides_throw_unchanged (c : Carousel) (idx : Num) (children : List Bool)
    (timerId : Nat) (hzero : c.slides = []) :
    showSlide c idx = .threw c ∧ nextSlide c = .threw c ∧ prevSlide c = .threw c
      ∧ (c.current.add 1).rem c.slides.length = .nan
      ∧ ((c.current.add (-1)).add c.slides.length).rem c.slides.length = .nan
      ∧ carouselInit [] children timerId
        = .threw
            { slides := []
              indicators := children
              current := .int 0
              interval := none
              liveTimers := []
              nextTimerId := timerId } := by
  have hshow : ∀ k, showSlide c k = .threw c := by
    intro k
    simp [showSlide, hzero, index?_nil]
  refine ⟨hshow idx, hshow _, hshow _, ?_, ?_, ?_⟩
  · cases c.current <;> simp [Num.add, Num.rem, hzero]
  · cases c.current <;> simp [Num.add, Num.rem, hzero]
  · simp [carouselInit, showSlide, index?_nil]

/-- A carousel without slides and with an empty indicator container. -/
theorem zero_slides_throw_unchanged_witness :
    showSlide ⟨[], [], .int 0, none, [], 1⟩ (.int 0) = .threw ⟨[], [], .int 0, none, [], 1⟩
      ∧ nextSlide ⟨[], [], .int 0, none, [], 1⟩ = .threw ⟨[], [], .int 0, none, [], 1⟩
      ∧ prevSlide ⟨[], [], .int 0, none, [], 1⟩ = .threw ⟨[], [], .int 0, none, [], 1⟩
      ∧ ((Num.int 0).add 1).rem (([] : List Bool).length : Int) = .nan
      ∧ (((Num.int 0).add (-1)).add (([] : List Bool).length : Int)).rem
          (([] : List Bool).length : Int) = .nan
      ∧ carouselInit [] [] 1 = .threw ⟨[], [], .int 0, none, [], 1⟩ :=
  zero_slides_throw_unchanged ⟨[], [], .int 0, none, [], 1⟩ (.int 0) [] 1 rfl

/-- C9 fails as stated.  For a carousel without slides the initialisation
ends with an exception, the index that nextSlide computes is NaN, and
nextSlide and prevSlide end with an exception as well. -/
theorem zero_slides_not_guarded :
    carouselInit [] [] 7 = .threw ⟨[], [], .int 0, none, [], 7⟩
      ∧ ((Num.int 0).add 1).rem (([] : List Bool).length : Int) = .nan
      ∧ nextSlide ⟨[], [], .int 0, none, [], 7⟩ = .threw ⟨[], [], .int 0, none, [], 7⟩
      ∧ prevSlide ⟨[], [], .int 0, none, [], 7⟩ = .threw ⟨[], [], .int 0, none, [], 7⟩ := by
  decide

/-! ## Contact form: the clock runs every due timer -/

/-- What a timer contributes to `pendingWork`. -/
theorem pendingWork_cons (tm : Timer) (l : List Timer) :
    pendingWork (tm :: l)
      = (match tm.callback with | .latencyOver => 2 | .resetForm => 1) + pendingWork l := by
  obtain ⟨d, cb⟩ := tm
  cases cb <;> simp [pendingWork]

/-- `pendingWork` of two lists of timers. -/
theorem pendingWork_append (l r : List Timer) :
    pendingWork (l ++ r) = pendingWork l + pendingWork r := by
  induction l with
  | nil => simp [pendingWork]
  | cons tm rest ih =>
    rw [List.cons_append, pendingWork_cons, pendingWork_cons, ih]
    omega

/-- Only the empty list has no work pending. -/
theorem pendingWork_eq_zero (l : List Timer) (h : pendingWork l = 0) : l = [] := by
  cases l with
  | nil => rfl
  | cons tm rest =>
    rw [pendingWork_cons] at h
    obtain ⟨d, cb⟩ := tm
    cases cb <;> simp at h

/-- Removing a pending timer removes its share of the work. -/
theorem pendingWork_erase (tm : Timer) (l : List Timer) (h : tm ∈ l) :
    pendingWork (l.erase tm) + (match tm.callback with | .latencyOver => 2 | .resetForm => 1)
      = pendingWork l := by
  induction l with
  | nil => cases h
  | cons u rest ih =>
    by_cases hu : u = tm
    · subst hu
      rw [List.erase_cons_head, pendingWork_cons]
      omega
    · have hmem : tm ∈ rest := by
        rcases List.mem_cons.mp h with h1 | h1
        · exact absurd h1.symm hu
        · exact h1
      have hne : ¬ (u == tm) = true := by simpa using hu
      rw [List.erase_cons_tail hne, pendingWork_cons, pendingWork_cons]
      have := ih hmem
      omega

/-- The timer that `nextDue` picks is pending and none is due before it;
only an empty list has none to pick. -/
theorem nextDue_spec (l : List Timer) :
    (nextDue l = none → l = [])
      ∧ ∀ tm, nextDue l = some tm → tm ∈ l ∧ ∀ u ∈ l, tm.due ≤ u.due := by
  induction l with
  | nil => simp [nextDue]
  | cons t rest ih =>
    constructor
    · intro h
      simp only [nextDue] at h
      split at h
      · cases h
      · split at h <;> cases h
    · intro tm h
      simp only [nextDue] at h
      split at h
      · rename_i hnone
        have hrest := ih.1 hnone
        subst hrest
        injection h with h
        subst h
        simp
      · rename_i u hsome
        obtain ⟨humem, hule⟩ := ih.2 u hsome
        split at h
        · rename_i hle
          injection h with h
          subst h
          refine ⟨List.mem_cons_self _ _, ?_⟩
          intro v hv
          rcases List.mem_cons.mp hv with h1 | h1
          · rw [h1]
          · exact Nat.le_trans hle (hule v h1)
        · rename_i hnle
          injection h with h
          subst h
          refine ⟨List.mem_cons_of_mem _ humem, ?_⟩
          intro v hv
          rcases List.mem_cons.mp hv with h1 | h1
          · rw [h1]
            omega
          · exact hule v h1

/-- With fuel for the pending work, `runTimers` leaves no timer that is due
at or before `t`. -/
theorem runTimers_complete (fuel t : Nat) (f : Form) (hfuel : pendingWork f.timers ≤ fuel) :
    ∀ u ∈ (runTimers fuel t f).timers, t < u.due := by
  induction fuel generalizing f with
  | zero =>
    have : f.timers = [] := pendingWork_eq_zero _ (by omega)
    simp [runTimers, this]
  | succ fuel ih =>
    rw [runTimers]
    cases hnext : nextDue f.timers with
    | none =>
      have : f.timers = [] := (nextDue_spec f.timers).1 hnext
      simp [this]
    | some tm =>
      obtain ⟨hmem, hmin⟩ := (nextDue_spec f.timers).2 tm hnext
      have herase := pendingWork_erase tm f.timers hmem
      by_cases hdue : tm.due ≤ t
      · simp only [hdue, if_true]
        apply ih
        obtain ⟨d, cb⟩ := tm
        cases cb with
        | latencyOver =>
          simp only [fire, afterLatency, pendingWork_append, pendingWork] at herase ⊢
          omega
        | resetForm =>
          simp only [fire, resetForm] at herase ⊢
          omega
      · simp only [hdue, if_false]
        intro u hu
        have := hmin u hu
        omega

/-- After `advanceTo t` no pending timer is due at or before `t`: the fuel
that `advanceTo` supplies is enough. -/
theorem advanceTo_no_due_timer (t : Nat) (f : Form) :
    ∀ u ∈ (advanceTo t f).timers, t < u.due := by
  intro u hu
  exact runTimers_complete (pendingWork f.timers) t f (Nat.le_refl _) u hu

/-! ## Contact form: proofs -/

/-- C6: when at least one of name, email and message is empty after
trimming, submitContactForm only writes the validation error to the console:
the control, its label, the visibility of the form and of the success message,
the fields and the pending timers stay as they were, no simulated call is
logged and no timer is set.  When all three are non-empty after trimming, the
submission enters the submitting state: the control is disabled and shows
the loading label, the simulated call is logged and its 1500ms timer is
set. -/
theorem submit_validates_fields (f : Form) :
    ((trim f.name = "" ∨ trim f.email = "" ∨ trim f.message = "") →
        submitContactForm f = { f with console := f.console ++ [.validationError] })
      ∧ ((trim f.name ≠ "" ∧ trim f.email ≠ "" ∧ trim f.message ≠ "") →
        (submitContactForm f).disabled = true
          ∧ (submitContactForm f).label = loadingLabel
          ∧ (submitContactForm f).console
            = f.console ++ [.mockBackendCall,
                .simulatingPost (trim f.name) (trim f.email) (trim f.message) f.now]
          ∧ (submitContactForm f).timers = f.timers ++ [⟨f.now + 1500, .latencyOver⟩]) := by
  constructor
  · intro h
    simp only [submitContactForm, if_pos h]
  · intro h
    have hn : ¬ (trim f.name = "" ∨ trim f.email = "" ∨ trim f.message = "") := by
      rintro (h1 | h1 | h1)
      · exact h.1 h1
      · exact h.2.1 h1
      · exact h.2.2 h1
    simp [submitContactForm, if_neg hn]

/-- A form whose message holds only blanks and a line break, and the same
form with a message. -/
theorem submit_validates_fields_witness :
    submitContactForm ⟨"Ada", "ada@example.org", " \n", false, "Send Message", false, false, true,
        [], 0, []⟩
      = { (⟨"Ada", "ada@example.org", " \n", false, "Send Message", false, false, true,
            [], 0, []⟩ : Form) with console := [] ++ [.validationError] }
    ∧ ((submitContactForm ⟨"Ada", "ada@example.org", " hello ", false, "Send Message", false,
          false, true, [], 0, []⟩).disabled = true
      ∧ (submitContactForm ⟨"Ada", "ada@example.org", " hello ", false, "Send Message", false,
          false, true, [], 0, []⟩).label = loadingLabel
      ∧ (submitContactForm ⟨"Ada", "ada@example.org", " hello ", false, "Send Message", false,
          false, true, [], 0, []⟩).console
        = [] ++ [.mockBackendCall,
            .simulatingPost (trim "Ada") (trim "ada@example.org") (trim " hello ") 0]
      ∧ (submitContactForm ⟨"Ada", "ada@example.org", " hello ", false, "Send Message", false,
          false, true, [], 0, []⟩).timers = [] ++ [⟨0 + 1500, .latencyOver⟩]) :=
  ⟨(submit_validates_fields ⟨"Ada", "ada@example.org", " \n", false, "Send Message", false,
      false, true, [], 0, []⟩).1 (by decide),
   (submit_validates_fields ⟨"Ada", "ada@example.org", " hello ", false, "Send Message", false,
      false, true, [], 0, []⟩).2 (by decide)⟩

/-- The state of a valid submission from a form without pending timers, at
any later instant `t`. -/
theorem advanceTo_submit (f : Form) (t : Nat)
    (hvalid : ¬ (trim f.name = "" ∨ trim f.email = "" ∨ trim f.message = ""))
    (hidle : f.timers = []) :
    advanceTo t (submitContactForm f)
      = if f.now + 1500 ≤ t then
          if f.now + 1500 + 8000 ≤ t then
            { resetForm (afterLatency { submitContactForm f with
                timers := [], now := f.now + 1500 }) with
              timers := [], now := max (f.now + 1500 + 8000) t }
          else
            { afterLatency { submitContactForm f with timers := [], now := f.now + 1500 } with
              now := max (f.now + 1500) t }
        else { submitContactForm f with now := max f.now t } := by
  have hs : (submitContactForm f).timers = [⟨f.now + 1500, .latencyOver⟩] := by
    simp [submitContactForm, if_neg hvalid, hidle]
  have hnow : (submitContactForm f).now = f.now := by
    simp [submitContactForm, if_neg hvalid]
  by_cases h1 : f.now + 1500 ≤ t
  · by_cases h2 : f.now + 1500 + 8000 ≤ t
    · simp [advanceTo, hs, pendingWork, runTimers, nextDue, h1, h2, fire, afterLatency, resetForm]
    · simp [advanceTo, hs, pendingWork, runTimers, nextDue, h1, h2, fire, afterLatency]
  · simp [advanceTo, hs, pendingWork, runTimers, nextDue, h1, hnow]

/-- C7: for a form whose three fields are non-empty after trimming and that
has no timer pending, a submission at time t disables the control and shows
the loading label at once; until t + 1500ms nothing else changes; from
t + 1500ms until t + 1500ms + 8000ms the form is hidden, the success message
is shown and the control is still disabled; from t + 1500ms + 8000ms on the
success message is hidden, the form is shown, the fields are empty, the
control is enabled with the label Send Message and no timer is left. -/
theorem submit_timeline (f : Form) (hname : trim f.name ≠ "") (hemail : trim f.email ≠ "")
    (hmessage : trim f.message ≠ "") (hidle : f.timers = []) :
    ((submitContactForm f).disabled = true ∧ (submitContactForm f).label = loadingLabel
        ∧ (submitContactForm f).now = f.now)
      ∧ (∀ t, f.now ≤ t → t < f.now + 1500 →
          (advanceTo t (submitContactForm f)).disabled = true
            ∧ (advanceTo t (submitContactForm f)).label = loadingLabel
            ∧ (advanceTo t (submitContactForm f)).formHidden = f.formHidden
            ∧ (advanceTo t (submitContactForm f)).successHidden = f.successHidden
            ∧ (advanceTo t (submitContactForm f)).now = t)
      ∧ (∀ t, f.now + 1500 ≤ t → t < f.now + 1500 + 8000 →
          (advanceTo t (submitContactForm f)).disabled = true
            ∧ (advanceTo t (submitContactForm f)).label = loadingLabel
            ∧ (advanceTo t (submitContactForm f)).formHidden = true
            ∧ (advanceTo t (submitContactForm f)).successHidden = false
            ∧ (advanceTo t (submitContactForm f)).now = t)
      ∧ (∀ t, f.now + 1500 + 8000 ≤ t →
          (advanceTo t (submitContactForm f)).disabled = false
            ∧ (advanceTo t (submitContactForm f)).label = "Send Message"
            ∧ (advanceTo t (submitContactForm f)).formHidden = false
            ∧ (advanceTo t (submitContactForm f)).successHidden = true
            ∧ (advanceTo t (submitContactForm f)).name = ""
            ∧ (advanceTo t (submitContactForm f)).email = ""
            ∧ (advanceTo t (submitContactForm f)).message = ""
            ∧ (advanceTo t (submitContactForm f)).timers = []
            ∧ (advanceTo t (submitContactForm f)).now = t) := by
  have hvalid : ¬ (trim f.name = "" ∨ trim f.email = "" ∨ trim f.message = "") := by
    rintro (h | h | h)
    · exact hname h
    · exact hemail h
    · exact hmessage h
  refine ⟨?_, ?_, ?_, ?_⟩
  · simp [submitContactForm, if_neg hvalid]
  · intro t h0 h1
    have hn : ¬ f.now + 1500 ≤ t := by omega
    rw [advanceTo_submit f t hvalid hidle, if_neg hn]
    simp [submitContactForm, if_neg hvalid, h0]
  · intro t h1 h2
    have hn : ¬ f.now + 1500 + 8000 ≤ t := by omega
    rw [advanceTo_submit f t hvalid hidle, if_pos h1, if_neg hn]
    simp [submitContactForm, if_neg hvalid, afterLatency, h1]
  · intro t h2
    have h1 : f.now + 1500 ≤ t := by omega
    rw [advanceTo_submit f t hvalid hidle, if_pos h1, if_pos h2]
    simp [resetForm, h2]

/-- A submission at time 1000: the last instant of the loading state, the
first and the last instant of the success view, and the instant of the
reset. -/
theorem submit_timeline_witness :
    ((advanceTo 2499 (submitContactForm ⟨"Ada", "ada@example.org", "Hello", false, "Send Message", false, false, true, [], 1000, []⟩)).disabled = true
        ∧ (advanceTo 2499 (submitContactForm ⟨"Ada", "ada@example.org", "Hello", false, "Send Message", false, false, true, [], 1000, []⟩)).formHidden = false)
      ∧ ((advanceTo 2500 (submitContactForm ⟨"Ada", "ada@example.org", "Hello", false, "Send Message", false, false, true, [], 1000, []⟩)).disabled = true
        ∧ (advanceTo 2500 (submitContactForm ⟨"Ada", "ada@example.org", "Hello", false, "Send Message", false, false, true, [], 1000, []⟩)).formHidden = true)
      ∧ ((advanceTo 10499 (submitContactForm ⟨"Ada", "ada@example.org", "Hello", false, "Send Message", false, false, true, [], 1000, []⟩)).disabled = true
        ∧ (advanceTo 10499 (submitContactForm ⟨"Ada", "ada@example.org", "Hello", false, "Send Message", false, false, true, [], 1000, []⟩)).successHidden = false)
      ∧ ((advanceTo 10500 (submitContactForm ⟨"Ada", "ada@example.org", "Hello", false, "Send Message", false, false, true, [], 1000, []⟩)).disabled = false
        ∧ (advanceTo 10500 (submitContactForm ⟨"Ada", "ada@example.org", "Hello", false, "Send Message", false, false, true, [], 1000, []⟩)).label = "Send Message") :=
  ⟨⟨((submit_timeline ⟨"Ada", "ada@example.org", "Hello", false, "Send Message", false, false, true, [], 1000, []⟩ (by decide) (by decide) (by decide) rfl).2.1 2499 (by decide) (by decide)).1,
    ((submit_timeline ⟨"Ada", "ada@example.org", "Hello", false, "Send Message", false, false, true, [], 1000, []⟩ (by decide) (by decide) (by decide) rfl).2.1 2499 (by decide) (by decide)).2.2.1⟩,
   ⟨((submit_timeline ⟨"Ada", "ada@example.org", "Hello", false, "Send Message", false, false, true, [], 1000, []⟩ (by decide) (by decide) (by decide) rfl).2.2.1 2500 (by decide) (by decide)).1,
    ((submit_timeline ⟨"Ada", "ada@example.org", "Hello", false, "Send Message", false, false, true, [], 1000, []⟩ (by decide) (by decide) (by decide) rfl).2.2.1 2500 (by decide) (by decide)).2.2.1⟩,
   ⟨((submit_timeline ⟨"Ada", "ada@example.org", "Hello", false, "Send Message", false, false, true, [], 1000, []⟩ (by decide) (by decide) (by decide) rfl).2.2.1 10499 (by decide) (by decide)).1,
    ((submit_timeline ⟨"Ada", "ada@example.org", "Hello", false, "Send Message", false, false, true, [], 1000, []⟩ (by decide) (by decide) (by decide) rfl).2.2.1 10499 (by decide) (by decide)).2.2.2.1⟩,
   ⟨((submit_timeline ⟨"Ada", "ada@example.org", "Hello", false, "Send Message", false, false, true, [], 1000, []⟩ (by decide) (by decide) (by decide) rfl).2.2.2 10500 (by decide)).1,
    ((submit_timeline ⟨"Ada", "ada@example.org", "Hello", false, "Send Message", false, false, true, [], 1000, []⟩ (by decide) (by decide) (by decide) rfl).2.2.2 10500 (by decide)).2.1⟩⟩

end TrashToValue
